import Mathlib

/-!
Shallow embedding of `src/lissajous.py` (functions `lissajous_knot` and
`plot_curves`) over the reals, together with theorems settling the spec
claims about curve sampling, offset computation and scene construction.
NumPy arrays are modelled as `List ℝ`; `np.linspace`, `np.min`, `np.cos`
become `linspace`, `npMin`, `Real.cos`.  The Plotly figure is modelled by
the `Scene` structure recording the traces together with the layout and
camera data that the code sets.
-/

open Real

/-- Model of `np.linspace lo hi n`: `n` evenly spaced samples over the
closed interval `[lo, hi]`.  For `n = 1` NumPy returns `[lo]`; here the
division by `(1 : ℝ) - 1 = 0` yields `0` in Lean, so the formula gives
`[lo]` with no special case. -/
noncomputable def linspace (lo hi : ℝ) (n : ℕ) : List ℝ :=
  (List.range n).map (fun (i : ℕ) => lo + (hi - lo) * (i : ℝ) / ((n : ℝ) - 1))

/-- Model of `np.min` on a nonempty array: the least element. -/
noncomputable def npMin : List ℝ → ℝ
  | [] => 0
  | h :: t => t.foldl min h

/-- The six arrays returned by `lissajous_knot`. -/
structure KnotOutput where
  x : List ℝ
  y : List ℝ
  z : List ℝ
  x_offset : List ℝ
  y_offset : List ℝ
  z_offset : List ℝ

/-- Embedding of `lissajous_knot(a, b, c, phi1, phi2, n_points, offset)`
from `src/lissajous.py` lines 31-40:
`t = np.linspace(-np.pi, np.pi, n_points)`, coordinatewise cosines, and
offset arrays `np.min(coord) * np.ones(coord.shape) * offset`. -/
noncomputable def lissajous_knot (a b c : ℤ) (phi1 phi2 : ℝ) (n_points : ℕ)
    (offset : ℝ) : KnotOutput :=
  let t := linspace (-Real.pi) Real.pi n_points
  let x := t.map (fun ti => Real.cos (a * ti + phi1))
  let y := t.map (fun ti => Real.cos (b * ti + phi2))
  let z := t.map (fun ti => Real.cos (c * ti))
  { x := x
    y := y
    z := z
    x_offset := x.map (fun _ => npMin x * 1 * offset)
    y_offset := y.map (fun _ => npMin y * 1 * offset)
    z_offset := z.map (fun _ => npMin z * 1 * offset) }

/-- The Python signature declares `offset=1.5` as default. -/
noncomputable def lissajous_knot_default (a b c : ℤ) (phi1 phi2 : ℝ)
    (n_points : ℕ) : KnotOutput :=
  lissajous_knot a b c phi1 phi2 n_points 1.5

/-- One `go.Scatter3d` line trace of the figure. -/
structure Trace where
  xs : List ℝ
  ys : List ℝ
  zs : List ℝ
  color : String
  width : ℕ
  name : String
  showlegend : Bool

/-- A 3-vector of camera coordinates. -/
structure Vec3 where
  x : ℝ
  y : ℝ
  z : ℝ

/-- One camera-preset button: label and the relayout camera triple. -/
structure CameraPreset where
  label : String
  eye : Vec3
  up : Vec3
  center : Vec3

/-- The figure built by `plot_curves`: traces plus the layout fields the
code sets (title, theme, size, initial camera, preset buttons). -/
structure Scene where
  traces : List Trace
  title : String
  template : String
  width : ℕ
  height : ℕ
  camera_eye : Vec3
  camera_up : Vec3
  camera_center : Vec3
  projection_type : String
  presets : List CameraPreset

/-- The pair of values plotted for segment `n`, following the Python
conditional `[v[n], v[n+1]] if n < n_points - 1 else [v[n], v[0]]`. -/
noncomputable def segPair (v : List ℝ) (n nPoints : ℕ) : List ℝ :=
  if n < nPoints - 1 then [v.getD n 0, v.getD (n + 1) 0]
  else [v.getD n 0, v.getD 0 0]

/-- The first `fig.add_trace` of iteration `n`: the bold "3D" segment. -/
noncomputable def trace3D (x y z : List ℝ) (nPoints n : ℕ) : Trace :=
  { xs := segPair x n nPoints, ys := segPair y n nPoints
    zs := segPair z n nPoints, color := "darkgoldenrod", width := 6
    name := "3D", showlegend := n == 0 }

/-- The second `fig.add_trace` of iteration `n`: the thin "X Offset"
shadow segment, taking its x values from the `x_offset` array. -/
noncomputable def traceXOffset (y z xo : List ℝ) (nPoints n : ℕ) : Trace :=
  { xs := segPair xo n nPoints, ys := segPair y n nPoints
    zs := segPair z n nPoints, color := "mediumspringgreen", width := 3
    name := "X Offset", showlegend := n == 0 }

/-- The third `fig.add_trace` of iteration `n`: the "Y Offset" shadow. -/
noncomputable def traceYOffset (x z yo : List ℝ) (nPoints n : ℕ) : Trace :=
  { xs := segPair x n nPoints, ys := segPair yo n nPoints
    zs := segPair z n nPoints, color := "mediumspringgreen", width := 3
    name := "Y Offset", showlegend := n == 0 }

/-- The fourth `fig.add_trace` of iteration `n`: the "Z Offset" shadow. -/
noncomputable def traceZOffset (x y zo : List ℝ) (nPoints n : ℕ) : Trace :=
  { xs := segPair x n nPoints, ys := segPair y n nPoints
    zs := segPair zo n nPoints, color := "mediumspringgreen", width := 3
    name := "Z Offset", showlegend := n == 0 }

/-- The four traces added in iteration `n` of the loop of `plot_curves`
(`src/lissajous.py` lines 70-130), in source order. -/
noncomputable def tracesFor (x y z xo yo zo : List ℝ) (nPoints n : ℕ) :
    List Trace :=
  [ trace3D x y z nPoints n, traceXOffset y z xo nPoints n,
    traceYOffset x z yo nPoints n, traceZOffset x y zo nPoints n ]

/-- The six camera-preset buttons installed by the final
`fig.update_layout(updatemenus=...)` call (`src/lissajous.py` lines
176-235). -/
noncomputable def cameraPresets : List CameraPreset :=
  [ { label := "Default", eye := ⟨1.5, 1.5, 1.5⟩, up := ⟨0, 0, 1⟩
      center := ⟨0, 0, 0⟩ },
    { label := "Top", eye := ⟨0, 0, 2.5⟩, up := ⟨0, 1, 0⟩
      center := ⟨0, 0, 0⟩ },
    { label := "Lateral Right", eye := ⟨2.5, 0, 0⟩, up := ⟨0, 0, 1⟩
      center := ⟨0, 0, 0⟩ },
    { label := "Lateral Left", eye := ⟨-2.5, 0, 0⟩, up := ⟨0, 0, 1⟩
      center := ⟨0, 0, 0⟩ },
    { label := "Front", eye := ⟨0, 2.5, 0⟩, up := ⟨0, 1, 1⟩
      center := ⟨0, 0, 0⟩ },
    { label := "Rear", eye := ⟨0, -2.5, 0⟩, up := ⟨0, 1, 1⟩
      center := ⟨0, 0, 0⟩ } ]

/-- Embedding of `plot_curves(x, y, z, x_offset, y_offset, z_offset,
figsize)`: `n_points = len(x)`, one group of four traces per loop index,
then the layout and camera-preset updates. -/
noncomputable def plot_curves (x y z xo yo zo : List ℝ) (figw figh : ℕ) :
    Scene :=
  { traces :=
      (List.range x.length).flatMap (tracesFor x y z xo yo zo x.length)
    title := "<b>Lissajous Knot</b>"
    template := "plotly_dark"
    width := figw
    height := figh
    camera_eye := ⟨1.5, 1.5, 1.5⟩
    camera_up := ⟨0, 0, 1⟩
    camera_center := ⟨0, 0, 0⟩
    projection_type := "orthographic"
    presets := cameraPresets }

/-- The traces of a scene belonging to legend group `g`. -/
def sceneGroup (s : Scene) (g : String) : List Trace :=
  s.traces.filter (fun tr => tr.name == g)

/-- The index that segment `i` of a closed `N`-point loop connects to:
`i + 1` for `i < N - 1`, wrapping to `0` for the final segment. -/
def wrapNext (i N : ℕ) : ℕ := if i < N - 1 then i + 1 else 0

/-- The trace `tr` is a line segment from point `i` to point `j` of the
curve whose coordinate arrays are `px`, `py`, `pz`. -/
def connectsPts (tr : Trace) (px py pz : List ℝ) (i j : ℕ) : Prop :=
  tr.xs = [px.getD i 0, px.getD j 0] ∧
  tr.ys = [py.getD i 0, py.getD j 0] ∧
  tr.zs = [pz.getD i 0, pz.getD j 0]

/-- Group `g` of scene `s` is a closed chain over the curve `(px, py,
pz)` with `N` points: it holds exactly `N` segments, segment `i`
connects point `i` to point `i + 1` for `i < N - 1`, and the final
segment connects point `N - 1` back to point `0`. -/
def groupClosedChain (s : Scene) (g : String) (px py pz : List ℝ)
    (N : ℕ) : Prop :=
  (sceneGroup s g).length = N ∧
  (∀ i, i < N - 1 →
    ∀ tr ∈ (sceneGroup s g)[i]?, connectsPts tr px py pz i (i + 1)) ∧
  (1 ≤ N →
    ∀ tr ∈ (sceneGroup s g)[N - 1]?, connectsPts tr px py pz (N - 1) 0)

/-! ## Basic lemmas about the embedding -/

lemma linspace_length (lo hi : ℝ) (n : ℕ) : (linspace lo hi n).length = n := by
  rw [linspace, List.length_map, List.length_range]

lemma linspace_getElem? (lo hi : ℝ) (n i : ℕ) (h : i < n) :
    (linspace lo hi n)[i]? = some (lo + (hi - lo) * i / ((n : ℝ) - 1)) := by
  rw [linspace, List.getElem?_map, List.getElem?_range h, Option.map_some']

/-- Every element produced by mapping a cosine lies in `[-1, 1]`. -/
lemma mem_map_cos_bounds {l : List ℝ} {g : ℝ → ℝ} {v : ℝ}
    (hv : v ∈ l.map fun ti => Real.cos (g ti)) : -1 ≤ v ∧ v ≤ 1 := by
  rcases List.mem_map.1 hv with ⟨t, _, rfl⟩
  exact ⟨Real.neg_one_le_cos _, Real.cos_le_one _⟩

lemma segPair_lt (v : List ℝ) {i N : ℕ} (h : i < N - 1) :
    segPair v i N = [v.getD i 0, v.getD (i + 1) 0] := if_pos h

lemma segPair_last (v : List ℝ) (N : ℕ) :
    segPair v (N - 1) N = [v.getD (N - 1) 0, v.getD 0 0] :=
  if_neg (by omega)

lemma segPair_wrapNext (v : List ℝ) (i N : ℕ) :
    segPair v i N = [v.getD i 0, v.getD (wrapNext i N) 0] := by
  unfold segPair wrapNext
  split <;> rfl

/-- A segment pair drawn from a constant list is the constant twice. -/
lemma segPair_const {l : List ℝ} {cst : ℝ} (hl : ∀ w ∈ l, w = cst)
    {m N : ℕ} (hlen : l.length = N) (hm : m < N) :
    segPair l m N = [cst, cst] := by
  have hget : ∀ j, j < N → l.getD j 0 = cst := by
    intro j hj
    have hj' : j < l.length := by omega
    rw [List.getD_eq_getElem l 0 hj']
    exact hl _ (List.getElem_mem hj')
  unfold segPair
  split
  · rw [hget m hm, hget (m + 1) (by omega)]
  · rw [hget m hm, hget 0 (by omega)]

/-- Filtering the figure's traces by group name keeps exactly one trace
per loop iteration, provided each iteration's four traces filter down to
the given one. -/
lemma sceneGroup_plot (x y z xo yo zo : List ℝ) (fw fh : ℕ) (g : String)
    (mk : ℕ → Trace)
    (hf : ∀ n, (tracesFor x y z xo yo zo x.length n).filter
        (fun tr => tr.name == g) = [mk n]) :
    sceneGroup (plot_curves x y z xo yo zo fw fh) g =
      (List.range x.length).map mk := by
  simp only [sceneGroup, plot_curves]
  rw [List.filter_flatMap]
  simp only [hf]
  exact (List.map_eq_flatMap mk (List.range x.length)).symm

lemma sceneGroup_3D (x y z xo yo zo : List ℝ) (fw fh : ℕ) :
    sceneGroup (plot_curves x y z xo yo zo fw fh) "3D" =
      (List.range x.length).map (trace3D x y z x.length) :=
  sceneGroup_plot x y z xo yo zo fw fh "3D" _ (fun _ => rfl)

lemma sceneGroup_XOffset (x y z xo yo zo : List ℝ) (fw fh : ℕ) :
    sceneGroup (plot_curves x y z xo yo zo fw fh) "X Offset" =
      (List.range x.length).map (traceXOffset y z xo x.length) :=
  sceneGroup_plot x y z xo yo zo fw fh "X Offset" _ (fun _ => rfl)

lemma sceneGroup_YOffset (x y z xo yo zo : List ℝ) (fw fh : ℕ) :
    sceneGroup (plot_curves x y z xo yo zo fw fh) "Y Offset" =
      (List.range x.length).map (traceYOffset x z yo x.length) :=
  sceneGroup_plot x y z xo yo zo fw fh "Y Offset" _ (fun _ => rfl)

lemma sceneGroup_ZOffset (x y z xo yo zo : List ℝ) (fw fh : ℕ) :
    sceneGroup (plot_curves x y z xo yo zo fw fh) "Z Offset" =
      (List.range x.length).map (traceZOffset x y zo x.length) :=
  sceneGroup_plot x y z xo yo zo fw fh "Z Offset" _ (fun _ => rfl)

lemma getElem?_map_range {α : Type} (mk : ℕ → α) {N i : ℕ} (h : i < N) :
    ((List.range N).map mk)[i]? = some (mk i) := by
  rw [List.getElem?_map, List.getElem?_range h, Option.map_some']

lemma knot_x_length (a b c : ℤ) (phi1 phi2 offset : ℝ) (n : ℕ) :
    (lissajous_knot a b c phi1 phi2 n offset).x.length = n := by
  simp only [lissajous_knot, List.length_map, linspace_length]

lemma knot_y_length (a b c : ℤ) (phi1 phi2 offset : ℝ) (n : ℕ) :
    (lissajous_knot a b c phi1 phi2 n offset).y.length = n := by
  simp only [lissajous_knot, List.length_map, linspace_length]

lemma knot_z_length (a b c : ℤ) (phi1 phi2 offset : ℝ) (n : ℕ) :
    (lissajous_knot a b c phi1 phi2 n offset).z.length = n := by
  simp only [lissajous_knot, List.length_map, linspace_length]

lemma knot_xo_length (a b c : ℤ) (phi1 phi2 offset : ℝ) (n : ℕ) :
    (lissajous_knot a b c phi1 phi2 n offset).x_offset.length = n := by
  simp only [lissajous_knot, List.length_map, linspace_length]

lemma knot_yo_length (a b c : ℤ) (phi1 phi2 offset : ℝ) (n : ℕ) :
    (lissajous_knot a b c phi1 phi2 n offset).y_offset.length = n := by
  simp only [lissajous_knot, List.length_map, linspace_length]

lemma knot_zo_length (a b c : ℤ) (phi1 phi2 offset : ℝ) (n : ℕ) :
    (lissajous_knot a b c phi1 phi2 n offset).z_offset.length = n := by
  simp only [lissajous_knot, List.length_map, linspace_length]

/-- Every element of the returned `x_offset` array is the scalar
`offset * min(x)`. -/
lemma knot_xo_elements (a b c : ℤ) (phi1 phi2 offset : ℝ) (n : ℕ) :
    ∀ v ∈ (lissajous_knot a b c phi1 phi2 n offset).x_offset,
      v = offset * npMin (lissajous_knot a b c phi1 phi2 n offset).x := by
  intro v hv
  simp only [lissajous_knot] at hv ⊢
  rcases List.mem_map.1 hv with ⟨t, -, rfl⟩
  ring

/-- Every element of the returned `y_offset` array is the scalar
`offset * min(y)`. -/
lemma knot_yo_elements (a b c : ℤ) (phi1 phi2 offset : ℝ) (n : ℕ) :
    ∀ v ∈ (lissajous_knot a b c phi1 phi2 n offset).y_offset,
      v = offset * npMin (lissajous_knot a b c phi1 phi2 n offset).y := by
  intro v hv
  simp only [lissajous_knot] at hv ⊢
  rcases List.mem_map.1 hv with ⟨t, -, rfl⟩
  ring

/-- Every element of the returned `z_offset` array is the scalar
`offset * min(z)`. -/
lemma knot_zo_elements (a b c : ℤ) (phi1 phi2 offset : ℝ) (n : ℕ) :
    ∀ v ∈ (lissajous_knot a b c phi1 phi2 n offset).z_offset,
      v = offset * npMin (lissajous_knot a b c phi1 phi2 n offset).z := by
  intro v hv
  simp only [lissajous_knot] at hv ⊢
  rcases List.mem_map.1 hv with ⟨t, -, rfl⟩
  ring

/-! ## Claim theorems -/

/-- Claim C5: for all integer `a, b, c` and every `n_points ≥ 2`, the
sampled curve returned by `lissajous_knot` has exactly `n_points` points
and every coordinate of every point lies in the interval `[-1, 1]`. -/
theorem c5_length_and_coordinate_bounds (a b c : ℤ) (phi1 phi2 offset : ℝ)
    (n : ℕ) (_h : 2 ≤ n) :
    ((lissajous_knot a b c phi1 phi2 n offset).x.length = n ∧
     (lissajous_knot a b c phi1 phi2 n offset).y.length = n ∧
     (lissajous_knot a b c phi1 phi2 n offset).z.length = n) ∧
    ((∀ v ∈ (lissajous_knot a b c phi1 phi2 n offset).x, -1 ≤ v ∧ v ≤ 1) ∧
     (∀ v ∈ (lissajous_knot a b c phi1 phi2 n offset).y, -1 ≤ v ∧ v ≤ 1) ∧
     (∀ v ∈ (lissajous_knot a b c phi1 phi2 n offset).z, -1 ≤ v ∧ v ≤ 1)) := by
  refine ⟨⟨?_, ?_, ?_⟩, ?_, ?_, ?_⟩ <;>
    first
      | (simp only [lissajous_knot, List.length_map, linspace_length]
         done)
      | (intro v hv
         simp only [lissajous_knot] at hv
         exact mem_map_cos_bounds hv)

/-- Witness for C5 at `a=3, b=4, c=2, phi1=phi2=0, n_points=2`. -/
theorem c5_length_and_coordinate_bounds_witness :
    (2 : ℕ) ≤ 2 ∧
    (((lissajous_knot 3 4 2 0 0 2 1.5).x.length = 2 ∧
      (lissajous_knot 3 4 2 0 0 2 1.5).y.length = 2 ∧
      (lissajous_knot 3 4 2 0 0 2 1.5).z.length = 2) ∧
     ((∀ v ∈ (lissajous_knot 3 4 2 0 0 2 1.5).x, -1 ≤ v ∧ v ≤ 1) ∧
      (∀ v ∈ (lissajous_knot 3 4 2 0 0 2 1.5).y, -1 ≤ v ∧ v ≤ 1) ∧
      (∀ v ∈ (lissajous_knot 3 4 2 0 0 2 1.5).z, -1 ≤ v ∧ v ≤ 1))) :=
  ⟨le_refl 2, c5_length_and_coordinate_bounds 3 4 2 0 0 1.5 2 (le_refl 2)⟩

/-- Claim C9: the three offset outputs of `lissajous_knot` are arrays of
the same length `n_points` as the coordinate arrays, and every element
of `x_offset` equals `offset * min(x)` (analogously for y and z). -/
theorem c9_offsets_are_constant_arrays (a b c : ℤ) (phi1 phi2 offset : ℝ)
    (n : ℕ) :
    ((lissajous_knot a b c phi1 phi2 n offset).x_offset.length = n ∧
     (lissajous_knot a b c phi1 phi2 n offset).y_offset.length = n ∧
     (lissajous_knot a b c phi1 phi2 n offset).z_offset.length = n ∧
     (lissajous_knot a b c phi1 phi2 n offset).x.length = n ∧
     (lissajous_knot a b c phi1 phi2 n offset).y.length = n ∧
     (lissajous_knot a b c phi1 phi2 n offset).z.length = n) ∧
    ((∀ v ∈ (lissajous_knot a b c phi1 phi2 n offset).x_offset,
        v = offset * npMin (lissajous_knot a b c phi1 phi2 n offset).x) ∧
     (∀ v ∈ (lissajous_knot a b c phi1 phi2 n offset).y_offset,
        v = offset * npMin (lissajous_knot a b c phi1 phi2 n offset).y) ∧
     (∀ v ∈ (lissajous_knot a b c phi1 phi2 n offset).z_offset,
        v = offset * npMin (lissajous_knot a b c phi1 phi2 n offset).z)) := by
  refine ⟨⟨?_, ?_, ?_, ?_, ?_, ?_⟩, ?_, ?_, ?_⟩ <;>
    first
      | (simp only [lissajous_knot, List.length_map, linspace_length]
         done)
      | (intro v hv
         simp only [lissajous_knot] at hv ⊢
         rcases List.mem_map.1 hv with ⟨t, -, rfl⟩
         ring)

/-- Claim C10: the `z` and `z_offset` outputs of `lissajous_knot` do not
depend on the phases `phi1` and `phi2`. -/
theorem c10_z_independent_of_phases (a b c : ℤ)
    (phi1 phi2 phi1' phi2' offset : ℝ) (n : ℕ) :
    (lissajous_knot a b c phi1 phi2 n offset).z =
      (lissajous_knot a b c phi1' phi2' n offset).z ∧
    (lissajous_knot a b c phi1 phi2 n offset).z_offset =
      (lissajous_knot a b c phi1' phi2' n offset).z_offset :=
  ⟨rfl, rfl⟩

/-- Claim C8: determinism — two invocations of `lissajous_knot` and then
`plot_curves` with identical parameters produce identical sampled arrays
and identical scenes. -/
theorem c8_determinism (a a' b b' c c' : ℤ)
    (phi1 phi1' phi2 phi2' offset offset' : ℝ) (n n' fw fw' fh fh' : ℕ)
    (ha : a = a') (hb : b = b') (hc : c = c') (h1 : phi1 = phi1')
    (h2 : phi2 = phi2') (hn : n = n') (ho : offset = offset')
    (hw : fw = fw') (hh : fh = fh') :
    lissajous_knot a b c phi1 phi2 n offset =
      lissajous_knot a' b' c' phi1' phi2' n' offset' ∧
    plot_curves (lissajous_knot a b c phi1 phi2 n offset).x
        (lissajous_knot a b c phi1 phi2 n offset).y
        (lissajous_knot a b c phi1 phi2 n offset).z
        (lissajous_knot a b c phi1 phi2 n offset).x_offset
        (lissajous_knot a b c phi1 phi2 n offset).y_offset
        (lissajous_knot a b c phi1 phi2 n offset).z_offset fw fh =
      plot_curves (lissajous_knot a' b' c' phi1' phi2' n' offset').x
        (lissajous_knot a' b' c' phi1' phi2' n' offset').y
        (lissajous_knot a' b' c' phi1' phi2' n' offset').z
        (lissajous_knot a' b' c' phi1' phi2' n' offset').x_offset
        (lissajous_knot a' b' c' phi1' phi2' n' offset').y_offset
        (lissajous_knot a' b' c' phi1' phi2' n' offset').z_offset
        fw' fh' := by
  subst ha hb hc h1 h2 hn ho hw hh
  exact ⟨rfl, rfl⟩

/-- Witness for C8 at the app's default parameters. -/
theorem c8_determinism_witness :
    lissajous_knot 3 4 2 0 0 100 1.5 = lissajous_knot 3 4 2 0 0 100 1.5 ∧
    plot_curves (lissajous_knot 3 4 2 0 0 100 1.5).x
        (lissajous_knot 3 4 2 0 0 100 1.5).y
        (lissajous_knot 3 4 2 0 0 100 1.5).z
        (lissajous_knot 3 4 2 0 0 100 1.5).x_offset
        (lissajous_knot 3 4 2 0 0 100 1.5).y_offset
        (lissajous_knot 3 4 2 0 0 100 1.5).z_offset 850 850 =
      plot_curves (lissajous_knot 3 4 2 0 0 100 1.5).x
        (lissajous_knot 3 4 2 0 0 100 1.5).y
        (lissajous_knot 3 4 2 0 0 100 1.5).z
        (lissajous_knot 3 4 2 0 0 100 1.5).x_offset
        (lissajous_knot 3 4 2 0 0 100 1.5).y_offset
        (lissajous_knot 3 4 2 0 0 100 1.5).z_offset 850 850 :=
  c8_determinism 3 3 4 4 2 2 0 0 0 0 1.5 1.5 100 100 850 850 850 850
    rfl rfl rfl rfl rfl rfl rfl rfl rfl

/-- Claim C7: the scene built by `plot_curves` exposes the camera preset
"Top" with eye `(0,0,2.5)`, up `(0,1,0)`, center `(0,0,0)`, independent
of the inputs, and its preset table is exactly the six entries Default,
Top, Lateral Right, Lateral Left, Front, Rear with the stated triples. -/
theorem c7_camera_preset_table (x y z xo yo zo : List ℝ) (fw fh : ℕ) :
    (plot_curves x y z xo yo zo fw fh).presets.find?
        (fun p => p.label == "Top") =
      some { label := "Top", eye := ⟨0, 0, 2.5⟩, up := ⟨0, 1, 0⟩,
             center := ⟨0, 0, 0⟩ } ∧
    (plot_curves x y z xo yo zo fw fh).presets =
      [ { label := "Default", eye := ⟨1.5, 1.5, 1.5⟩, up := ⟨0, 0, 1⟩,
          center := ⟨0, 0, 0⟩ },
        { label := "Top", eye := ⟨0, 0, 2.5⟩, up := ⟨0, 1, 0⟩,
          center := ⟨0, 0, 0⟩ },
        { label := "Lateral Right", eye := ⟨2.5, 0, 0⟩, up := ⟨0, 0, 1⟩,
          center := ⟨0, 0, 0⟩ },
        { label := "Lateral Left", eye := ⟨-2.5, 0, 0⟩, up := ⟨0, 0, 1⟩,
          center := ⟨0, 0, 0⟩ },
        { label := "Front", eye := ⟨0, 2.5, 0⟩, up := ⟨0, 1, 1⟩,
          center := ⟨0, 0, 0⟩ },
        { label := "Rear", eye := ⟨0, -2.5, 0⟩, up := ⟨0, 1, 1⟩,
          center := ⟨0, 0, 0⟩ } ] :=
  ⟨rfl, rfl⟩

/-- Claim C1: for every parameter set with `n_points ≥ 2`, the sampling
parameter is `t_i = -π + 2π·i/(n_points - 1)` (uniform over the closed
interval `[-π, π]`, both endpoints included) and the `i`-th sampled
point is exactly `(cos(a·t_i + phi1), cos(b·t_i + phi2), cos(c·t_i))`. -/
theorem c1_uniform_closed_interval_sampling (a b c : ℤ)
    (phi1 phi2 offset : ℝ) (n i : ℕ) (h2 : 2 ≤ n) (hi : i < n) :
    (lissajous_knot a b c phi1 phi2 n offset).x[i]? =
      some (Real.cos (a * (-Real.pi + 2 * Real.pi * i / ((n - 1 : ℕ) : ℝ))
        + phi1)) ∧
    (lissajous_knot a b c phi1 phi2 n offset).y[i]? =
      some (Real.cos (b * (-Real.pi + 2 * Real.pi * i / ((n - 1 : ℕ) : ℝ))
        + phi2)) ∧
    (lissajous_knot a b c phi1 phi2 n offset).z[i]? =
      some (Real.cos (c * (-Real.pi + 2 * Real.pi * i / ((n - 1 : ℕ) : ℝ)))) := by
  have hcast : ((n - 1 : ℕ) : ℝ) = (n : ℝ) - 1 := by
    rw [Nat.cast_sub (by omega : 1 ≤ n), Nat.cast_one]
  have ht : -Real.pi + (Real.pi - -Real.pi) * (i : ℝ) / ((n : ℝ) - 1) =
      -Real.pi + 2 * Real.pi * i / ((n - 1 : ℕ) : ℝ) := by
    rw [hcast]; ring
  refine ⟨?_, ?_, ?_⟩ <;>
    (simp only [lissajous_knot, List.getElem?_map,
       linspace_getElem? (-Real.pi) Real.pi n i hi, Option.map_some']
     rw [ht])

/-- Witness for C1 at `a=3, b=4, c=2, phi1=phi2=π/2, n_points=2, i=0`. -/
theorem c1_uniform_closed_interval_sampling_witness :
    ((2 : ℕ) ≤ 2 ∧ (0 : ℕ) < 2) ∧
    ((lissajous_knot 3 4 2 (Real.pi / 2) (Real.pi / 2) 2 1.5).x[0]? =
      some (Real.cos (((3 : ℤ) : ℝ) *
        (-Real.pi + 2 * Real.pi * ((0 : ℕ) : ℝ) / ((2 - 1 : ℕ) : ℝ))
        + Real.pi / 2)) ∧
     (lissajous_knot 3 4 2 (Real.pi / 2) (Real.pi / 2) 2 1.5).y[0]? =
      some (Real.cos (((4 : ℤ) : ℝ) *
        (-Real.pi + 2 * Real.pi * ((0 : ℕ) : ℝ) / ((2 - 1 : ℕ) : ℝ))
        + Real.pi / 2)) ∧
     (lissajous_knot 3 4 2 (Real.pi / 2) (Real.pi / 2) 2 1.5).z[0]? =
      some (Real.cos (((2 : ℤ) : ℝ) *
        (-Real.pi + 2 * Real.pi * ((0 : ℕ) : ℝ) / ((2 - 1 : ℕ) : ℝ))))) :=
  ⟨⟨le_refl 2, Nat.zero_lt_two⟩,
   c1_uniform_closed_interval_sampling 3 4 2 (Real.pi / 2) (Real.pi / 2)
     1.5 2 0 (le_refl 2) Nat.zero_lt_two⟩

/-- Claim C4: each projection offset equals `offset_ratio` times the
minimum of the corresponding coordinate array, the default
`offset_ratio` is 1.5, and every shadow segment of the scene uses the
precomputed scalar offset value for both endpoints. -/
theorem c4_offset_invariant (a b c : ℤ) (phi1 phi2 offset : ℝ)
    (n fw fh : ℕ) :
    ((∀ v ∈ (lissajous_knot a b c phi1 phi2 n offset).x_offset,
        v = offset * npMin (lissajous_knot a b c phi1 phi2 n offset).x) ∧
     (∀ v ∈ (lissajous_knot a b c phi1 phi2 n offset).y_offset,
        v = offset * npMin (lissajous_knot a b c phi1 phi2 n offset).y) ∧
     (∀ v ∈ (lissajous_knot a b c phi1 phi2 n offset).z_offset,
        v = offset * npMin (lissajous_knot a b c phi1 phi2 n offset).z)) ∧
    lissajous_knot_default a b c phi1 phi2 n =
      lissajous_knot a b c phi1 phi2 n 1.5 ∧
    ((∀ tr ∈ sceneGroup
        (plot_curves (lissajous_knot a b c phi1 phi2 n offset).x
          (lissajous_knot a b c phi1 phi2 n offset).y
          (lissajous_knot a b c phi1 phi2 n offset).z
          (lissajous_knot a b c phi1 phi2 n offset).x_offset
          (lissajous_knot a b c phi1 phi2 n offset).y_offset
          (lissajous_knot a b c phi1 phi2 n offset).z_offset fw fh)
        "X Offset",
        tr.xs = [offset * npMin (lissajous_knot a b c phi1 phi2 n offset).x,
                 offset * npMin (lissajous_knot a b c phi1 phi2 n offset).x]) ∧
     (∀ tr ∈ sceneGroup
        (plot_curves (lissajous_knot a b c phi1 phi2 n offset).x
          (lissajous_knot a b c phi1 phi2 n offset).y
          (lissajous_knot a b c phi1 phi2 n offset).z
          (lissajous_knot a b c phi1 phi2 n offset).x_offset
          (lissajous_knot a b c phi1 phi2 n offset).y_offset
          (lissajous_knot a b c phi1 phi2 n offset).z_offset fw fh)
        "Y Offset",
        tr.ys = [offset * npMin (lissajous_knot a b c phi1 phi2 n offset).y,
                 offset * npMin (lissajous_knot a b c phi1 phi2 n offset).y]) ∧
     (∀ tr ∈ sceneGroup
        (plot_curves (lissajous_knot a b c phi1 phi2 n offset).x
          (lissajous_knot a b c phi1 phi2 n offset).y
          (lissajous_knot a b c phi1 phi2 n offset).z
          (lissajous_knot a b c phi1 phi2 n offset).x_offset
          (lissajous_knot a b c phi1 phi2 n offset).y_offset
          (lissajous_knot a b c phi1 phi2 n offset).z_offset fw fh)
        "Z Offset",
        tr.zs = [offset * npMin (lissajous_knot a b c phi1 phi2 n offset).z,
                 offset * npMin (lissajous_knot a b c phi1 phi2 n offset).z])) := by
  refine ⟨⟨knot_xo_elements a b c phi1 phi2 offset n,
           knot_yo_elements a b c phi1 phi2 offset n,
           knot_zo_elements a b c phi1 phi2 offset n⟩, rfl, ?_, ?_, ?_⟩
  · intro tr htr
    rw [sceneGroup_XOffset] at htr
    rcases List.mem_map.1 htr with ⟨m, hm, rfl⟩
    have hmlt : m < (lissajous_knot a b c phi1 phi2 n offset).x.length :=
      List.mem_range.1 hm
    show segPair (lissajous_knot a b c phi1 phi2 n offset).x_offset m
        (lissajous_knot a b c phi1 phi2 n offset).x.length = _
    exact segPair_const (knot_xo_elements a b c phi1 phi2 offset n)
      (by rw [knot_xo_length, knot_x_length]) hmlt
  · intro tr htr
    rw [sceneGroup_YOffset] at htr
    rcases List.mem_map.1 htr with ⟨m, hm, rfl⟩
    have hmlt : m < (lissajous_knot a b c phi1 phi2 n offset).x.length :=
      List.mem_range.1 hm
    show segPair (lissajous_knot a b c phi1 phi2 n offset).y_offset m
        (lissajous_knot a b c phi1 phi2 n offset).x.length = _
    exact segPair_const (knot_yo_elements a b c phi1 phi2 offset n)
      (by rw [knot_yo_length, knot_x_length]) hmlt
  · intro tr htr
    rw [sceneGroup_ZOffset] at htr
    rcases List.mem_map.1 htr with ⟨m, hm, rfl⟩
    have hmlt : m < (lissajous_knot a b c phi1 phi2 n offset).x.length :=
      List.mem_range.1 hm
    show segPair (lissajous_knot a b c phi1 phi2 n offset).z_offset m
        (lissajous_knot a b c phi1 phi2 n offset).x.length = _
    exact segPair_const (knot_zo_elements a b c phi1 phi2 offset n)
      (by rw [knot_zo_length, knot_x_length]) hmlt

/-- A legend group whose traces are the mapped segment builders over
`List.range N` forms a closed chain over the given coordinate lists. -/
lemma groupClosedChain_of_map (s : Scene) (g : String) (px py pz : List ℝ)
    (N : ℕ) (mk : ℕ → Trace)
    (hgrp : sceneGroup s g = (List.range N).map mk)
    (hmk : ∀ i, (mk i).xs = segPair px i N ∧ (mk i).ys = segPair py i N ∧
      (mk i).zs = segPair pz i N) :
    groupClosedChain s g px py pz N := by
  refine ⟨?_, ?_, ?_⟩
  · rw [hgrp, List.length_map, List.length_range]
  · intro i hi tr htr
    rw [hgrp, getElem?_map_range mk (by omega : i < N)] at htr
    have heq : mk i = tr := by simpa using htr
    subst heq
    rcases hmk i with ⟨h1, h2, h3⟩
    exact ⟨by rw [h1, segPair_lt px hi], by rw [h2, segPair_lt py hi],
      by rw [h3, segPair_lt pz hi]⟩
  · intro hN tr htr
    rw [hgrp, getElem?_map_range mk (by omega : N - 1 < N)] at htr
    have heq : mk (N - 1) = tr := by simpa using htr
    subst heq
    rcases hmk (N - 1) with ⟨h1, h2, h3⟩
    exact ⟨by rw [h1, segPair_last], by rw [h2, segPair_last],
      by rw [h3, segPair_last]⟩

/-- Claim C2: for every sampled curve of `n_points` points, the scene
produced by `plot_curves` contains exactly `n_points` line segments in
each of the groups "3D", "X Offset", "Y Offset", "Z Offset"; segment `i`
connects point `i` to point `i + 1` for `i < n_points - 1` and the last
segment connects point `n_points - 1` back to point `0`. -/
theorem c2_each_group_is_closed_chain (x y z xo yo zo : List ℝ)
    (N fw fh : ℕ) (hx : x.length = N) (hy : y.length = N)
    (hz : z.length = N) (hxo : xo.length = N) (hyo : yo.length = N)
    (hzo : zo.length = N) :
    groupClosedChain (plot_curves x y z xo yo zo fw fh) "3D" x y z N ∧
    groupClosedChain (plot_curves x y z xo yo zo fw fh) "X Offset"
      xo y z N ∧
    groupClosedChain (plot_curves x y z xo yo zo fw fh) "Y Offset"
      x yo z N ∧
    groupClosedChain (plot_curves x y z xo yo zo fw fh) "Z Offset"
      x y zo N := by
  subst hx
  exact ⟨groupClosedChain_of_map _ _ _ _ _ _ _
      (sceneGroup_3D x y z xo yo zo fw fh) (fun i => ⟨rfl, rfl, rfl⟩),
    groupClosedChain_of_map _ _ _ _ _ _ _
      (sceneGroup_XOffset x y z xo yo zo fw fh) (fun i => ⟨rfl, rfl, rfl⟩),
    groupClosedChain_of_map _ _ _ _ _ _ _
      (sceneGroup_YOffset x y z xo yo zo fw fh) (fun i => ⟨rfl, rfl, rfl⟩),
    groupClosedChain_of_map _ _ _ _ _ _ _
      (sceneGroup_ZOffset x y z xo yo zo fw fh) (fun i => ⟨rfl, rfl, rfl⟩)⟩

/-- Witness for C2 on a two-point curve with all arrays `[0, 1]`. -/
theorem c2_each_group_is_closed_chain_witness :
    (([(0 : ℝ), 1].length = 2) ∧
     (groupClosedChain
        (plot_curves [(0 : ℝ), 1] [(0 : ℝ), 1] [(0 : ℝ), 1] [(0 : ℝ), 1]
          [(0 : ℝ), 1] [(0 : ℝ), 1] 850 850) "3D"
        [(0 : ℝ), 1] [(0 : ℝ), 1] [(0 : ℝ), 1] 2 ∧
      groupClosedChain
        (plot_curves [(0 : ℝ), 1] [(0 : ℝ), 1] [(0 : ℝ), 1] [(0 : ℝ), 1]
          [(0 : ℝ), 1] [(0 : ℝ), 1] 850 850) "X Offset"
        [(0 : ℝ), 1] [(0 : ℝ), 1] [(0 : ℝ), 1] 2 ∧
      groupClosedChain
        (plot_curves [(0 : ℝ), 1] [(0 : ℝ), 1] [(0 : ℝ), 1] [(0 : ℝ), 1]
          [(0 : ℝ), 1] [(0 : ℝ), 1] 850 850) "Y Offset"
        [(0 : ℝ), 1] [(0 : ℝ), 1] [(0 : ℝ), 1] 2 ∧
      groupClosedChain
        (plot_curves [(0 : ℝ), 1] [(0 : ℝ), 1] [(0 : ℝ), 1] [(0 : ℝ), 1]
          [(0 : ℝ), 1] [(0 : ℝ), 1] 850 850) "Z Offset"
        [(0 : ℝ), 1] [(0 : ℝ), 1] [(0 : ℝ), 1] 2)) :=
  ⟨rfl, c2_each_group_is_closed_chain [(0 : ℝ), 1] [(0 : ℝ), 1]
    [(0 : ℝ), 1] [(0 : ℝ), 1] [(0 : ℝ), 1] [(0 : ℝ), 1] 2 850 850
    rfl rfl rfl rfl rfl rfl⟩

/-- Counterexample to C3 as stated: with `n_points = 1` the code does
not fail with any InvalidParameter condition — `lissajous_knot` returns
a single sample taken at `t = -π`, and `plot_curves` still builds one
(degenerate) segment in the "3D" group. -/
theorem c3_no_failure_at_one_point :
    (lissajous_knot 3 4 2 0 0 1 1.5).x.length = 1 ∧
    (lissajous_knot 3 4 2 0 0 1 1.5).x[0]? =
      some (Real.cos (((3 : ℤ) : ℝ) * (-Real.pi) + 0)) ∧
    (sceneGroup (plot_curves (lissajous_knot 3 4 2 0 0 1 1.5).x
        (lissajous_knot 3 4 2 0 0 1 1.5).y
        (lissajous_knot 3 4 2 0 0 1 1.5).z
        (lissajous_knot 3 4 2 0 0 1 1.5).x_offset
        (lissajous_knot 3 4 2 0 0 1 1.5).y_offset
        (lissajous_knot 3 4 2 0 0 1 1.5).z_offset 850 850) "3D").length
      = 1 := by
  refine ⟨knot_x_length 3 4 2 0 0 1.5 1, ?_, ?_⟩
  · simp only [lissajous_knot, List.getElem?_map,
      linspace_getElem? (-Real.pi) Real.pi 1 0 Nat.zero_lt_one,
      Option.map_some']
    norm_num
  · rw [sceneGroup_3D, List.length_map, List.length_range, knot_x_length]

/-- Claim C3 (amended): calling the core with `n_points = 2` produces
exactly 2 points and 2 closing segments per group without failing; with
`n_points = 1` the core does not fail either, producing 1 point and a
single degenerate segment per group that joins point 0 to itself. -/
theorem c3_boundary_two_and_one_points (a b c : ℤ) (phi1 phi2 offset : ℝ)
    (fw fh : ℕ) :
    ((lissajous_knot a b c phi1 phi2 2 offset).x.length = 2 ∧
     (sceneGroup (plot_curves (lissajous_knot a b c phi1 phi2 2 offset).x
        (lissajous_knot a b c phi1 phi2 2 offset).y
        (lissajous_knot a b c phi1 phi2 2 offset).z
        (lissajous_knot a b c phi1 phi2 2 offset).x_offset
        (lissajous_knot a b c phi1 phi2 2 offset).y_offset
        (lissajous_knot a b c phi1 phi2 2 offset).z_offset fw fh)
        "3D").length = 2 ∧
     (sceneGroup (plot_curves (lissajous_knot a b c phi1 phi2 2 offset).x
        (lissajous_knot a b c phi1 phi2 2 offset).y
        (lissajous_knot a b c phi1 phi2 2 offset).z
        (lissajous_knot a b c phi1 phi2 2 offset).x_offset
        (lissajous_knot a b c phi1 phi2 2 offset).y_offset
        (lissajous_knot a b c phi1 phi2 2 offset).z_offset fw fh)
        "X Offset").length = 2 ∧
     (sceneGroup (plot_curves (lissajous_knot a b c phi1 phi2 2 offset).x
        (lissajous_knot a b c phi1 phi2 2 offset).y
        (lissajous_knot a b c phi1 phi2 2 offset).z
        (lissajous_knot a b c phi1 phi2 2 offset).x_offset
        (lissajous_knot a b c phi1 phi2 2 offset).y_offset
        (lissajous_knot a b c phi1 phi2 2 offset).z_offset fw fh)
        "Y Offset").length = 2 ∧
     (sceneGroup (plot_curves (lissajous_knot a b c phi1 phi2 2 offset).x
        (lissajous_knot a b c phi1 phi2 2 offset).y
        (lissajous_knot a b c phi1 phi2 2 offset).z
        (lissajous_knot a b c phi1 phi2 2 offset).x_offset
        (lissajous_knot a b c phi1 phi2 2 offset).y_offset
        (lissajous_knot a b c phi1 phi2 2 offset).z_offset fw fh)
        "Z Offset").length = 2) ∧
    ((lissajous_knot a b c phi1 phi2 1 offset).x.length = 1 ∧
     (sceneGroup (plot_curves (lissajous_knot a b c phi1 phi2 1 offset).x
        (lissajous_knot a b c phi1 phi2 1 offset).y
        (lissajous_knot a b c phi1 phi2 1 offset).z
        (lissajous_knot a b c phi1 phi2 1 offset).x_offset
        (lissajous_knot a b c phi1 phi2 1 offset).y_offset
        (lissajous_knot a b c phi1 phi2 1 offset).z_offset fw fh)
        "3D").length = 1 ∧
     (sceneGroup (plot_curves (lissajous_knot a b c phi1 phi2 1 offset).x
        (lissajous_knot a b c phi1 phi2 1 offset).y
        (lissajous_knot a b c phi1 phi2 1 offset).z
        (lissajous_knot a b c phi1 phi2 1 offset).x_offset
        (lissajous_knot a b c phi1 phi2 1 offset).y_offset
        (lissajous_knot a b c phi1 phi2 1 offset).z_offset fw fh)
        "X Offset").length = 1 ∧
     (sceneGroup (plot_curves (lissajous_knot a b c phi1 phi2 1 offset).x
        (lissajous_knot a b c phi1 phi2 1 offset).y
        (lissajous_knot a b c phi1 phi2 1 offset).z
        (lissajous_knot a b c phi1 phi2 1 offset).x_offset
        (lissajous_knot a b c phi1 phi2 1 offset).y_offset
        (lissajous_knot a b c phi1 phi2 1 offset).z_offset fw fh)
        "Y Offset").length = 1 ∧
     (sceneGroup (plot_curves (lissajous_knot a b c phi1 phi2 1 offset).x
        (lissajous_knot a b c phi1 phi2 1 offset).y
        (lissajous_knot a b c phi1 phi2 1 offset).z
        (lissajous_knot a b c phi1 phi2 1 offset).x_offset
        (lissajous_knot a b c phi1 phi2 1 offset).y_offset
        (lissajous_knot a b c phi1 phi2 1 offset).z_offset fw fh)
        "Z Offset").length = 1 ∧
     (∀ tr ∈ (sceneGroup
        (plot_curves (lissajous_knot a b c phi1 phi2 1 offset).x
          (lissajous_knot a b c phi1 phi2 1 offset).y
          (lissajous_knot a b c phi1 phi2 1 offset).z
          (lissajous_knot a b c phi1 phi2 1 offset).x_offset
          (lissajous_knot a b c phi1 phi2 1 offset).y_offset
          (lissajous_knot a b c phi1 phi2 1 offset).z_offset fw fh)
        "3D")[0]?,
        connectsPts tr (lissajous_knot a b c phi1 phi2 1 offset).x
          (lissajous_knot a b c phi1 phi2 1 offset).y
          (lissajous_knot a b c phi1 phi2 1 offset).z 0 0)) := by
  refine ⟨⟨knot_x_length a b c phi1 phi2 offset 2, ?_, ?_, ?_, ?_⟩,
    knot_x_length a b c phi1 phi2 offset 1, ?_, ?_, ?_, ?_, ?_⟩
  · rw [sceneGroup_3D, List.length_map, List.length_range, knot_x_length]
  · rw [sceneGroup_XOffset, List.length_map, List.length_range,
      knot_x_length]
  · rw [sceneGroup_YOffset, List.length_map, List.length_range,
      knot_x_length]
  · rw [sceneGroup_ZOffset, List.length_map, List.length_range,
      knot_x_length]
  · rw [sceneGroup_3D, List.length_map, List.length_range, knot_x_length]
  · rw [sceneGroup_XOffset, List.length_map, List.length_range,
      knot_x_length]
  · rw [sceneGroup_YOffset, List.length_map, List.length_range,
      knot_x_length]
  · rw [sceneGroup_ZOffset, List.length_map, List.length_range,
      knot_x_length]
  · intro tr htr
    rw [sceneGroup_3D, knot_x_length,
      getElem?_map_range _ Nat.zero_lt_one] at htr
    have heq : trace3D (lissajous_knot a b c phi1 phi2 1 offset).x
        (lissajous_knot a b c phi1 phi2 1 offset).y
        (lissajous_knot a b c phi1 phi2 1 offset).z 1 0 = tr := by
      simpa using htr
    subst heq
    exact ⟨segPair_last _ 1, segPair_last _ 1, segPair_last _ 1⟩

/-- Claim C6: for every segment index, the X-shadow trace has both x
endpoints fixed at the offset plane value `offset * min(x)` while its y
and z values are the real curve coordinates at the connected pair of
indices; the Y- and Z-shadow traces behave analogously, fixing y
respectively z at their offset plane value. -/
theorem c6_shadow_segment_coordinates (a b c : ℤ) (phi1 phi2 offset : ℝ)
    (n fw fh i : ℕ) (hi : i < n) :
    ((sceneGroup (plot_curves (lissajous_knot a b c phi1 phi2 n offset).x
        (lissajous_knot a b c phi1 phi2 n offset).y
        (lissajous_knot a b c phi1 phi2 n offset).z
        (lissajous_knot a b c phi1 phi2 n offset).x_offset
        (lissajous_knot a b c phi1 phi2 n offset).y_offset
        (lissajous_knot a b c phi1 phi2 n offset).z_offset fw fh)
        "X Offset")[i]? =
      some (traceXOffset (lissajous_knot a b c phi1 phi2 n offset).y
        (lissajous_knot a b c phi1 phi2 n offset).z
        (lissajous_knot a b c phi1 phi2 n offset).x_offset n i) ∧
     (traceXOffset (lissajous_knot a b c phi1 phi2 n offset).y
        (lissajous_knot a b c phi1 phi2 n offset).z
        (lissajous_knot a b c phi1 phi2 n offset).x_offset n i).xs =
      [offset * npMin (lissajous_knot a b c phi1 phi2 n offset).x,
       offset * npMin (lissajous_knot a b c phi1 phi2 n offset).x] ∧
     (traceXOffset (lissajous_knot a b c phi1 phi2 n offset).y
        (lissajous_knot a b c phi1 phi2 n offset).z
        (lissajous_knot a b c phi1 phi2 n offset).x_offset n i).ys =
      [(lissajous_knot a b c phi1 phi2 n offset).y.getD i 0,
       (lissajous_knot a b c phi1 phi2 n offset).y.getD (wrapNext i n) 0] ∧
     (traceXOffset (lissajous_knot a b c phi1 phi2 n offset).y
        (lissajous_knot a b c phi1 phi2 n offset).z
        (lissajous_knot a b c phi1 phi2 n offset).x_offset n i).zs =
      [(lissajous_knot a b c phi1 phi2 n offset).z.getD i 0,
       (lissajous_knot a b c phi1 phi2 n offset).z.getD (wrapNext i n) 0]) ∧
    ((sceneGroup (plot_curves (lissajous_knot a b c phi1 phi2 n offset).x
        (lissajous_knot a b c phi1 phi2 n offset).y
        (lissajous_knot a b c phi1 phi2 n offset).z
        (lissajous_knot a b c phi1 phi2 n offset).x_offset
        (lissajous_knot a b c phi1 phi2 n offset).y_offset
        (lissajous_knot a b c phi1 phi2 n offset).z_offset fw fh)
        "Y Offset")[i]? =
      some (traceYOffset (lissajous_knot a b c phi1 phi2 n offset).x
        (lissajous_knot a b c phi1 phi2 n offset).z
        (lissajous_knot a b c phi1 phi2 n offset).y_offset n i) ∧
     (traceYOffset (lissajous_knot a b c phi1 phi2 n offset).x
        (lissajous_knot a b c phi1 phi2 n offset).z
        (lissajous_knot a b c phi1 phi2 n offset).y_offset n i).ys =
      [offset * npMin (lissajous_knot a b c phi1 phi2 n offset).y,
       offset * npMin (lissajous_knot a b c phi1 phi2 n offset).y] ∧
     (traceYOffset (lissajous_knot a b c phi1 phi2 n offset).x
        (lissajous_knot a b c phi1 phi2 n offset).z
        (lissajous_knot a b c phi1 phi2 n offset).y_offset n i).xs =
      [(lissajous_knot a b c phi1 phi2 n offset).x.getD i 0,
       (lissajous_knot a b c phi1 phi2 n offset).x.getD (wrapNext i n) 0] ∧
     (traceYOffset (lissajous_knot a b c phi1 phi2 n offset).x
        (lissajous_knot a b c phi1 phi2 n offset).z
        (lissajous_knot a b c phi1 phi2 n offset).y_offset n i).zs =
      [(lissajous_knot a b c phi1 phi2 n offset).z.getD i 0,
       (lissajous_knot a b c phi1 phi2 n offset).z.getD (wrapNext i n) 0]) ∧
    ((sceneGroup (plot_curves (lissajous_knot a b c phi1 phi2 n offset).x
        (lissajous_knot a b c phi1 phi2 n offset).y
        (lissajous_knot a b c phi1 phi2 n offset).z
        (lissajous_knot a b c phi1 phi2 n offset).x_offset
        (lissajous_knot a b c phi1 phi2 n offset).y_offset
        (lissajous_knot a b c phi1 phi2 n offset).z_offset fw fh)
        "Z Offset")[i]? =
      some (traceZOffset (lissajous_knot a b c phi1 phi2 n offset).x
        (lissajous_knot a b c phi1 phi2 n offset).y
        (lissajous_knot a b c phi1 phi2 n offset).z_offset n i) ∧
     (traceZOffset (lissajous_knot a b c phi1 phi2 n offset).x
        (lissajous_knot a b c phi1 phi2 n offset).y
        (lissajous_knot a b c phi1 phi2 n offset).z_offset n i).zs =
      [offset * npMin (lissajous_knot a b c phi1 phi2 n offset).z,
       offset * npMin (lissajous_knot a b c phi1 phi2 n offset).z] ∧
     (traceZOffset (lissajous_knot a b c phi1 phi2 n offset).x
        (lissajous_knot a b c phi1 phi2 n offset).y
        (lissajous_knot a b c phi1 phi2 n offset).z_offset n i).xs =
      [(lissajous_knot a b c phi1 phi2 n offset).x.getD i 0,
       (lissajous_knot a b c phi1 phi2 n offset).x.getD (wrapNext i n) 0] ∧
     (traceZOffset (lissajous_knot a b c phi1 phi2 n offset).x
        (lissajous_knot a b c phi1 phi2 n offset).y
        (lissajous_knot a b c phi1 phi2 n offset).z_offset n i).ys =
      [(lissajous_knot a b c phi1 phi2 n offset).y.getD i 0,
       (lissajous_knot a b c phi1 phi2 n offset).y.getD (wrapNext i n) 0]) := by
  refine ⟨⟨?_, ?_, ?_, ?_⟩, ⟨?_, ?_, ?_, ?_⟩, ⟨?_, ?_, ?_, ?_⟩⟩
  · rw [sceneGroup_XOffset, knot_x_length]
    exact getElem?_map_range _ hi
  · exact segPair_const (knot_xo_elements a b c phi1 phi2 offset n)
      (knot_xo_length a b c phi1 phi2 offset n) hi
  · exact segPair_wrapNext _ i n
  · exact segPair_wrapNext _ i n
  · rw [sceneGroup_YOffset, knot_x_length]
    exact getElem?_map_range _ hi
  · exact segPair_const (knot_yo_elements a b c phi1 phi2 offset n)
      (knot_yo_length a b c phi1 phi2 offset n) hi
  · exact segPair_wrapNext _ i n
  · exact segPair_wrapNext _ i n
  · rw [sceneGroup_ZOffset, knot_x_length]
    exact getElem?_map_range _ hi
  · exact segPair_const (knot_zo_elements a b c phi1 phi2 offset n)
      (knot_zo_length a b c phi1 phi2 offset n) hi
  · exact segPair_wrapNext _ i n
  · exact segPair_wrapNext _ i n

/-- Witness for C6 at `a=3, b=4, c=2, phi1=phi2=0, n_points=2, i=0`. -/
theorem c6_shadow_segment_coordinates_witness :
    (0 : ℕ) < 2 ∧
    (((sceneGroup (plot_curves (lissajous_knot 3 4 2 0 0 2 1.5).x
        (lissajous_knot 3 4 2 0 0 2 1.5).y
        (lissajous_knot 3 4 2 0 0 2 1.5).z
        (lissajous_knot 3 4 2 0 0 2 1.5).x_offset
        (lissajous_knot 3 4 2 0 0 2 1.5).y_offset
        (lissajous_knot 3 4 2 0 0 2 1.5).z_offset 850 850)
        "X Offset")[0]? =
      some (traceXOffset (lissajous_knot 3 4 2 0 0 2 1.5).y
        (lissajous_knot 3 4 2 0 0 2 1.5).z
        (lissajous_knot 3 4 2 0 0 2 1.5).x_offset 2 0) ∧
     (traceXOffset (lissajous_knot 3 4 2 0 0 2 1.5).y
        (lissajous_knot 3 4 2 0 0 2 1.5).z
        (lissajous_knot 3 4 2 0 0 2 1.5).x_offset 2 0).xs =
      [1.5 * npMin (lissajous_knot 3 4 2 0 0 2 1.5).x,
       1.5 * npMin (lissajous_knot 3 4 2 0 0 2 1.5).x] ∧
     (traceXOffset (lissajous_knot 3 4 2 0 0 2 1.5).y
        (lissajous_knot 3 4 2 0 0 2 1.5).z
        (lissajous_knot 3 4 2 0 0 2 1.5).x_offset 2 0).ys =
      [(lissajous_knot 3 4 2 0 0 2 1.5).y.getD 0 0,
       (lissajous_knot 3 4 2 0 0 2 1.5).y.getD (wrapNext 0 2) 0] ∧
     (traceXOffset (lissajous_knot 3 4 2 0 0 2 1.5).y
        (lissajous_knot 3 4 2 0 0 2 1.5).z
        (lissajous_knot 3 4 2 0 0 2 1.5).x_offset 2 0).zs =
      [(lissajous_knot 3 4 2 0 0 2 1.5).z.getD 0 0,
       (lissajous_knot 3 4 2 0 0 2 1.5).z.getD (wrapNext 0 2) 0]) ∧
    ((sceneGroup (plot_curves (lissajous_knot 3 4 2 0 0 2 1.5).x
        (lissajous_knot 3 4 2 0 0 2 1.5).y
        (lissajous_knot 3 4 2 0 0 2 1.5).z
        (lissajous_knot 3 4 2 0 0 2 1.5).x_offset
        (lissajous_knot 3 4 2 0 0 2 1.5).y_offset
        (lissajous_knot 3 4 2 0 0 2 1.5).z_offset 850 850)
        "Y Offset")[0]? =
      some (traceYOffset (lissajous_knot 3 4 2 0 0 2 1.5).x
        (lissajous_knot 3 4 2 0 0 2 1.5).z
        (lissajous_knot 3 4 2 0 0 2 1.5).y_offset 2 0) ∧
     (traceYOffset (lissajous_knot 3 4 2 0 0 2 1.5).x
        (lissajous_knot 3 4 2 0 0 2 1.5).z
        (lissajous_knot 3 4 2 0 0 2 1.5).y_offset 2 0).ys =
      [1.5 * npMin (lissajous_knot 3 4 2 0 0 2 1.5).y,
       1.5 * npMin (lissajous_knot 3 4 2 0 0 2 1.5).y] ∧
     (traceYOffset (lissajous_knot 3 4 2 0 0 2 1.5).x
        (lissajous_knot 3 4 2 0 0 2 1.5).z
        (lissajous_knot 3 4 2 0 0 2 1.5).y_offset 2 0).xs =
      [(lissajous_knot 3 4 2 0 0 2 1.5).x.getD 0 0,
       (lissajous_knot 3 4 2 0 0 2 1.5).x.getD (wrapNext 0 2) 0] ∧
     (traceYOffset (lissajous_knot 3 4 2 0 0 2 1.5).x
        (lissajous_knot 3 4 2 0 0 2 1.5).z
        (lissajous_knot 3 4 2 0 0 2 1.5).y_offset 2 0).zs =
      [(lissajous_knot 3 4 2 0 0 2 1.5).z.getD 0 0,
       (lissajous_knot 3 4 2 0 0 2 1.5).z.getD (wrapNext 0 2) 0]) ∧
    ((sceneGroup (plot_curves (lissajous_knot 3 4 2 0 0 2 1.5).x
        (lissajous_knot 3 4 2 0 0 2 1.5).y
        (lissajous_knot 3 4 2 0 0 2 1.5).z
        (lissajous_knot 3 4 2 0 0 2 1.5).x_offset
        (lissajous_knot 3 4 2 0 0 2 1.5).y_offset
        (lissajous_knot 3 4 2 0 0 2 1.5).z_offset 850 850)
        "Z Offset")[0]? =
      some (traceZOffset (lissajous_knot 3 4 2 0 0 2 1.5).x
        (lissajous_knot 3 4 2 0 0 2 1.5).y
        (lissajous_knot 3 4 2 0 0 2 1.5).z_offset 2 0) ∧
     (traceZOffset (lissajous_knot 3 4 2 0 0 2 1.5).x
        (lissajous_knot 3 4 2 0 0 2 1.5).y
        (lissajous_knot 3 4 2 0 0 2 1.5).z_offset 2 0).zs =
      [1.5 * npMin (lissajous_knot 3 4 2 0 0 2 1.5).z,
       1.5 * npMin (lissajous_knot 3 4 2 0 0 2 1.5).z] ∧
     (traceZOffset (lissajous_knot 3 4 2 0 0 2 1.5).x
        (lissajous_knot 3 4 2 0 0 2 1.5).y
        (lissajous_knot 3 4 2 0 0 2 1.5).z_offset 2 0).xs =
      [(lissajous_knot 3 4 2 0 0 2 1.5).x.getD 0 0,
       (lissajous_knot 3 4 2 0 0 2 1.5).x.getD (wrapNext 0 2) 0] ∧
     (traceZOffset (lissajous_knot 3 4 2 0 0 2 1.5).x
        (lissajous_knot 3 4 2 0 0 2 1.5).y
        (lissajous_knot 3 4 2 0 0 2 1.5).z_offset 2 0).ys =
      [(lissajous_knot 3 4 2 0 0 2 1.5).y.getD 0 0,
       (lissajous_knot 3 4 2 0 0 2 1.5).y.getD (wrapNext 0 2) 0])) :=
  ⟨Nat.zero_lt_two,
   c6_shadow_segment_coordinates 3 4 2 0 0 1.5 2 850 850 0
     Nat.zero_lt_two⟩
